import Mathlib

/-!
Verification of the hume/humed store-and-forward notification relay.

The daemon (`src/humed.py`) receives JSON "hume" packets over a REP socket,
authenticates and acknowledges them, validates their structure, persists them
in a `transfers` table, and a worker thread forwards pending records to the
configured backend (syslog, logstash, slack webhook, or a plugin), marking a
record `sent=1` only when the backend reports success.

This file shallowly embeds the relevant functions of `src/humed.py`:
Python dynamic values are modelled by `JVal` (the result of `json.loads`),
Python exceptions by `Except PyErr`, the sqlite `transfers` table by a list
of `TransferRec`, and external effects (the HumeRenderer, `requests.post`,
`datetime.fromisoformat`) by function parameters.
-/

/-- A Python value as produced by `json.loads`: None, bool, int, str, list
or dict (with string keys, insertion-ordered). Floats do not occur in the
fields the daemon inspects. -/
inductive JVal where
  | jnull
  | jbool (b : Bool)
  | jint (n : Int)
  | jstr (s : String)
  | jarr (xs : List JVal)
  | jobj (fs : List (String × JVal))

/-- Python exception kinds that the embedded code paths can raise. -/
inductive PyErr where
  | typeError
  | keyError
  | indexError
  | attributeError
  | requestsError
  deriving DecidableEq, Repr

/-- Association-list lookup on a parsed JSON object, i.e. `d[k]` / `k in d`
on a Python dict. -/
def olookup (fs : List (String × JVal)) (k : String) : Option JVal :=
  (fs.find? (fun kv => kv.1 = k)).map (fun kv => kv.2)

/-- `isinstance(v, dict)` view: the fields of `v` if it is an object. -/
def asObj : JVal → Option (List (String × JVal))
  | .jobj fs => some fs
  | _ => none

mutual

/-- Python `repr` of a JSON-decoded value (string escaping inside container
reprs is not reproduced; no claim inspects it). -/
def pyRepr : JVal → String
  | .jnull => "None"
  | .jbool true => "True"
  | .jbool false => "False"
  | .jint n => toString n
  | .jstr s => "\x27" ++ s ++ "\x27"
  | .jarr xs => "[" ++ pyReprList xs ++ "]"
  | .jobj fs => "\x7b" ++ pyReprObj fs ++ "\x7d"

/-- Comma-joined reprs of list elements. -/
def pyReprList : List JVal → String
  | [] => ""
  | [x] => pyRepr x
  | x :: y :: xs => pyRepr x ++ ", " ++ pyReprList (y :: xs)

/-- Comma-joined `'key': repr` pairs of dict entries. -/
def pyReprObj : List (String × JVal) → String
  | [] => ""
  | [(k, v)] => "\x27" ++ k ++ "\x27: " ++ pyRepr v
  | (k, v) :: e :: fs => "\x27" ++ k ++ "\x27: " ++ pyRepr v ++ ", " ++ pyReprObj (e :: fs)

end

/-- Python `str` of a JSON-decoded value (`str` of a string is itself;
containers render via `repr`). -/
def pyStr : JVal → String
  | .jstr s => s
  | v => pyRepr v

/-- `isinstance(v, int)` — Python `bool` is a subclass of `int`. -/
def py_isinstance_int : JVal → Bool
  | .jint _ => true
  | .jbool _ => true
  | _ => false

/-- Python `==` between a JSON value and an int; `True == 1`, `False == 0`. -/
def pyEqInt (v : JVal) (n : Int) : Bool :=
  match v with
  | .jint m => m = n
  | .jbool b => (if b then (1 : Int) else 0) = n
  | _ => false

/-- Python `==` between a JSON value and a str. -/
def pyEqStr (v : JVal) (s : String) : Bool :=
  match v with
  | .jstr x => x = s
  | _ => false

/-- Python `v in l` for a list of ints. -/
def pyIntMem (v : JVal) (l : List Int) : Bool :=
  l.any (fun n => pyEqInt v n)

/-- Python `v in l` for a list of strs. -/
def pyStrMem (v : JVal) (l : List String) : Bool :=
  l.any (fun s => pyEqStr v s)

/-- `SUPPORTED_MSG_VERSIONS = [MESSAGE_VERSION]` with `MESSAGE_VERSION = 1`
(humed.py line 30, hume.py line 19). -/
def SUPPORTED_MSG_VERSIONS : List Int := [1]

/-- `Hume.LEVELS` (hume.py line 24). -/
def LEVELS : List String :=
  ["info", "ok", "warning", "error", "critical", "debug", "unknown"]

/-- Split a character list on a separator character (used to model splitting
a hostname into dot-separated labels). -/
def splitOnChar (c : Char) : List Char → List (List Char)
  | [] => [[]]
  | x :: rest =>
    match splitOnChar c rest with
    | [] => [[]]
    | l :: ls => if x = c then [] :: l :: ls else (x :: l) :: ls

/-- One hostname label: 1-63 characters, alphanumeric or hyphen, with no
leading or trailing hyphen. -/
def validLabel (l : List Char) : Bool :=
  decide (1 ≤ l.length) && decide (l.length ≤ 63)
    && l.all (fun c => c.isAlpha || c.isDigit || c = '-')
    && (match l.head? with | some c => !(c = '-') | none => false)
    && (match l.getLast? with | some c => !(c = '-') | none => false)

/-- Modelled from the spec: `is_valid_hostname` is imported from
`humetools.py`, which is not part of src/. Per spec section 3, a hostname is
valid when its dot-separated labels each have 1-63 alphanumeric-or-hyphen
characters with no leading or trailing hyphen, and the total length is at
most 253 characters. -/
def is_valid_hostname (s : String) : Bool :=
  decide (s.length ≤ 253) && (splitOnChar '.' s.data).all validLabel

/-- `Humed.is_valid_hume` (humed.py lines 607-645): structural validation of
an incoming packet. -/
def is_valid_hume (hume : JVal) : Bool :=
  match hume with
  | .jobj fs =>
    match olookup fs "hume" with
    | some (.jobj pkt) =>
      (match olookup pkt "version" with
       | some v => py_isinstance_int v && pyIntMem v SUPPORTED_MSG_VERSIONS
       | none => false)
      && (match olookup pkt "timestamp" with
          | some (.jstr _) => true
          | _ => false)
      && (match olookup pkt "hostname" with
          | some h => is_valid_hostname (pyStr h)
          | none => false)
      && (match olookup pkt "level" with
          | some l => pyStrMem l LEVELS
          | none => false)
      && (match olookup pkt "msg" with
          | some (.jstr _) => true
          | _ => false)
      && (match olookup pkt "tags" with
          | some (.jarr _) => true
          | some _ => false
          | none => true)
      && (match olookup pkt "task" with
          | some (.jstr _) => true
          | some _ => false
          | none => true)
      && (match olookup pkt "extra" with
          | some (.jobj _) => true
          | some _ => false
          | none => true)
    | _ => false
  | _ => false

/-- `Humed.check_auth_token` (humed.py lines 647-651): any falsy configured
token (absent or empty) disables authentication; otherwise the message's
`token` field must equal the configured token. `msg.get` on a non-dict
raises `AttributeError`. -/
def check_auth_token (auth_token : Option String) (msg : JVal) : Except PyErr Bool :=
  match auth_token with
  | none => .ok true
  | some t =>
    if t = "" then .ok true
    else
      match msg with
      | .jobj fs =>
        .ok (match olookup fs "token" with
             | some (.jstr s) => s = t
             | _ => false)
      | _ => .error .attributeError

/-- The outcome of `json.loads` on a stored `transfers.hume` text column:
either the payload is not valid JSON, or it decodes to a value. -/
inductive StoredPayload where
  | malformed
  | parsed (j : JVal)

/-- One row of the `transfers` table (humed.py lines 258-259):
`transfers (ts timestamp, sent boolean, hume text)` plus the implicit sqlite
`rowid`. -/
structure TransferRec where
  rowid : Nat
  ts : String
  sent : Bool
  payload : StoredPayload

/-- The `transfers` table, in rowid (= insertion) order. -/
abbrev Store := List TransferRec

/-- `Humed.list_transfers2` (humed.py lines 346-363): the rowids of all
records, or of the records with `sent = 0` when `pending` is true. -/
def list_transfers2 (pending : Bool) (st : Store) : List Nat :=
  if pending then (st.filter (fun r => !r.sent)).map (fun r => r.rowid)
  else st.map (fun r => r.rowid)

/-- `Humed.transfer_ok` (humed.py lines 267-277):
`UPDATE transfers SET sent=1 WHERE rowid=?`. -/
def transfer_ok (st : Store) (rowid : Nat) : Store :=
  st.map (fun r => if r.rowid = rowid then { r with sent := true } else r)

/-- The next sqlite rowid assigned by an INSERT (max existing rowid + 1). -/
def nextRowid (st : Store) : Nat :=
  (st.map (fun r => r.rowid)).foldr Nat.max 0 + 1

/-- `Humed.add_transfer` (humed.py lines 279-295):
`INSERT INTO transfers(ts, sent, hume) VALUES (now, 0, json.dumps(hume))`.
A value decoded by `json.loads` always re-serializes, so the stored payload
is `parsed hume`. -/
def add_transfer (st : Store) (now : String) (hume : JVal) : Store :=
  st ++ [⟨nextRowid st, now, false, .parsed hume⟩]

/-- The in-memory `Humed.status` dict: `(hostname, task) -> (level, epoch)`. -/
abbrev StatusMap := List ((String × String) × (String × Int))

/-- Python dict assignment `m[k] = v`: replace in place if the key exists,
else append. -/
def dictSet (m : StatusMap) (k : String × String) (v : String × Int) : StatusMap :=
  if m.any (fun e => e.1 = k) then m.map (fun e => if e.1 = k then (k, v) else e)
  else m ++ [(k, v)]

/-- `Humed.update_status` (humed.py lines 653-667). The body is wrapped in
`try/except: pass`, so any failure leaves the table unchanged.
`datetime.fromisoformat` is external and is modelled by the `tsParse`
parameter; `now` models `time.time()`. -/
def update_status (status : StatusMap) (tsParse : String → Option Int) (now : Int)
    (hume : JVal) : StatusMap :=
  match asObj hume with
  | none => status
  | some fs =>
    match olookup fs "hume" with
    | none => status
    | some inner =>
      match asObj inner with
      | none => status
      | some pkt =>
        let host := pyStr ((olookup pkt "hostname").getD (.jstr ""))
        let task := pyStr ((olookup pkt "task").getD (.jstr ""))
        let level := pyStr ((olookup pkt "level").getD (.jstr ""))
        let ts : Int := match olookup pkt "timestamp" with
          | some (.jstr s) => (tsParse s).getD now
          | _ => now
        dictSet status (host, task) (level, ts)

/-- `hume.pop('token', None)` (humed.py line 757): removes the `token` key
from the parsed packet; `.pop` on a non-dict raises `AttributeError`. -/
def popToken : JVal → Except PyErr JVal
  | .jobj fs => .ok (.jobj (fs.filter (fun kv => !(kv.1 == "token"))))
  | _ => .error .attributeError

/-- The mutable per-daemon state the listener touches: the `transfers`
table and the in-memory status dict. -/
structure ListenerState where
  store : Store
  status : StatusMap

/-- The per-message body of `Humed.run`'s receive loop (humed.py lines
740-767). `raw` is the result of `json.loads` on the received bytes (`none`
= parse failure). The first component is the reply string sent back over the
REP socket (in the order the code sends it: the acknowledgement is emitted
before `pop`/validation/persistence run); the second is the daemon state
afterwards, or the Python exception that escapes the loop. -/
def run_handle_msg (auth_token : Option String) (tsParse : String → Option Int)
    (now : Int) (dbts : String) (ls : ListenerState) (raw : Option JVal) :
    Option String × Except PyErr ListenerState :=
  match raw with
  | none => (some "Invalid JSON message", .ok ls)
  | some hume =>
    match check_auth_token auth_token hume with
    | .error e => (none, .error e)
    | .ok false => (some "AUTHFAIL", .ok ls)
    | .ok true =>
      (some "OK",
       match popToken hume with
       | .error e => .error e
       | .ok hume2 =>
         if is_valid_hume hume2 then
           .ok { store := add_transfer ls.store dbts hume2,
                 status := update_status ls.status tsParse now hume2 }
         else .ok ls)

/-- Escape a double quote as backslash-quote: `s.replace('"', '\\"')`. -/
def escQuote (s : String) : String :=
  String.mk ((s.data.map (fun c => if c = '"' then ['\\', '"'] else [c])).flatten)

/-- Join a list of strings with a separator (`sep.join(l)` /
`'\n'.join(lines)`). -/
def joinWith (sep : String) : List String → String
  | [] => ""
  | [x] => x
  | x :: y :: xs => x ++ sep ++ joinWith sep (y :: xs)

/-- `Humed.render_metrics` (humed.py lines 669-678): the Prometheus text
body, one gauge line per status entry, quotes in label values escaped. -/
def render_metrics (status : StatusMap) : String :=
  joinWith "\n"
    ("# TYPE hume_task_last_ts_seconds gauge" ::
      status.map (fun e =>
        "hume_task_last_ts_seconds\x7bhostname=\"" ++ escQuote e.1.1
          ++ "\",task=\"" ++ escQuote e.1.2
          ++ "\",level=\"" ++ escQuote e.2.1
          ++ "\"\x7d " ++ toString e.2.2))
  ++ "\n"

/-- An HTTP response of the metrics server: status code, optional
Content-Type header, optional body. -/
structure HttpResp where
  stat : Nat
  contentType : Option String
  body : Option String
  deriving DecidableEq, Repr

/-- `Humed._MetricsHandler.do_GET` (humed.py lines 685-700). `authHeader` is
the request's `Authorization` header (`headers.get('Authorization', '')`
defaults it to the empty string); a falsy configured token skips the check. -/
def do_GET (metrics_token : Option String) (status : StatusMap) (path : String)
    (authHeader : Option String) : HttpResp :=
  if path = "/metrics" then
    let ok : HttpResp :=
      ⟨200, some "text/plain; version=0.0.4", some (render_metrics status)⟩
    match metrics_token with
    | none => ok
    | some t =>
      if t = "" then ok
      else if (authHeader.getD "") = "Bearer " ++ t then ok
      else ⟨403, none, none⟩
  else ⟨404, none, none⟩

/-- The `humepkt` dict that `get_humepkt_from_transfers` builds:
`{'rowid': rowid, 'ts': ts, 'hume': <parsed full packet>}`. -/
structure HumePkt where
  rowid : Nat
  ts : String
  hume : JVal

/-- The Python value `worker_process_transfers` passes to a backend as
`humepkt`: `None` (never produced when a rowid is given), the literal
`False` that `get_humepkt_from_transfers` returns for a malformed payload,
or a packet dict. -/
inductive SlackArg where
  | pyNone
  | pyFalse
  | pyPkt (p : HumePkt)

/-- The `extra`-defaulting in `get_humepkt_from_transfers` (humed.py lines
334-339): insert `extra = {}` when absent, replace a `None` value. -/
def set_extra_default (pkt : List (String × JVal)) : List (String × JVal) :=
  match olookup pkt "extra" with
  | none => pkt ++ [("extra", .jobj [])]
  | some .jnull => pkt.map (fun kv => if kv.1 = "extra" then (kv.1, JVal.jobj []) else kv)
  | some _ => pkt

/-- Replace the value stored under a key of an object. -/
def set_field (fs : List (String × JVal)) (k : String) (v : JVal) :
    List (String × JVal) :=
  fs.map (fun kv => if kv.1 = k then (k, v) else kv)

/-- `Humed.get_humepkt_from_transfers` (humed.py lines 316-344): load a row
by rowid; a payload that `json.loads` rejects yields the sentinel `False`
(`pyFalse`); a missing row makes `rows[0]` raise `IndexError`; a payload
without a dict `hume` key raises on the `extra`-defaulting accesses. -/
def get_humepkt_from_transfers (st : Store) (rowid : Nat) : Except PyErr SlackArg :=
  match st.find? (fun r => r.rowid = rowid) with
  | none => .error .indexError
  | some rec =>
    match rec.payload with
    | .malformed => .ok .pyFalse
    | .parsed j =>
      match j with
      | .jobj fs =>
        match olookup fs "hume" with
        | some (.jobj pkt) =>
          .ok (.pyPkt ⟨rowid, rec.ts, .jobj (set_field fs "hume" (.jobj (set_extra_default pkt)))⟩)
        | some _ => .error .attributeError
        | none => .error .keyError
      | _ => .error .typeError

/-- Per-slack-instance configuration (`config['slack']`): the string-valued
entries (`webhook_default`, `webhook_warning`, ..., `template_base`) and the
optional `task_channels` task-to-webhook override dict (`none` models an
absent or non-dict value, which `isinstance(task_channels, dict)` filters
out). -/
structure SlackCfg where
  entries : List (String × String)
  task_channels : Option (List (String × String))

/-- Lookup in the string-valued slack config entries. -/
def cfgLookup (l : List (String × String)) (k : String) : Option String :=
  (l.find? (fun kv => kv.1 = k)).map (fun kv => kv.2)

/-- The per-level webhook choice of `Humed.slack` (humed.py lines 438-446):
`webhook_default` for ok/info, `webhook_warning` for warning/unknown, else
`webhook_{level}`; an absent key falls back to `webhook_default`, whose own
absence raises `KeyError`. -/
def slack_level_webhook (cfg : SlackCfg) (level : JVal) : Option String :=
  let chan :=
    if pyStrMem level ["ok", "info"] then "webhook_default"
    else if pyStrMem level ["warning", "unknown"] then "webhook_warning"
    else "webhook_" ++ pyStr level
  let chan2 := if (cfgLookup cfg.entries chan).isSome then chan else "webhook_default"
  cfgLookup cfg.entries chan2

/-- The full webhook choice of `Humed.slack` (humed.py lines 431-446): a
`task_channels[task]` override wins, otherwise the per-level choice. -/
def slack_choose_webhook (cfg : SlackCfg) (task : JVal) (level : JVal) :
    Option String :=
  match cfg.task_channels with
  | some tc =>
    match tc.find? (fun kv => pyEqStr task kv.1) with
    | some kv => some kv.2
    | none => slack_level_webhook cfg level
  | none => slack_level_webhook cfg level

/-- `d[k]` on the humepkt dicts inside `Humed.slack`: `KeyError` when the
key is absent, `TypeError` when the value is not a dict. -/
def jget (j : JVal) (k : String) : Except PyErr JVal :=
  match j with
  | .jobj fs =>
    match olookup fs k with
    | some v => .ok v
    | none => .error .keyError
  | _ => .error .typeError

/-- `','.join(tags)` preceded by the `tags is None` check (humed.py lines
397-400): `None` gives the empty string; a list joins its elements when all
are strings and raises `TypeError` otherwise; a string joins its characters;
a dict joins its keys; anything else is not iterable. -/
def pyJoinComma : JVal → Except PyErr String
  | .jnull => .ok ""
  | .jarr xs =>
    if xs.all (fun x => match x with | .jstr _ => true | _ => false)
    then .ok (joinWith "," (xs.map pyStr))
    else .error .typeError
  | .jstr s => .ok (joinWith "," (s.data.map (fun c => String.mk [c])))
  | .jobj fs => .ok (joinWith "," (fs.map (fun kv => kv.1)))
  | _ => .error .typeError

/-- Replace every occurrence of a character by a replacement string. -/
def pyReplaceChar (c : Char) (new : String) (s : String) : String :=
  String.mk ((s.data.map (fun x => if x = c then new.data else [x])).flatten)

/-- The slack escaping chain (humed.py line 412):
`m.replace('&','&amp;').replace('<','&lt;').replace('>','&gt;')`. -/
def htmlEscape (s : String) : String :=
  pyReplaceChar '>' "&gt;" (pyReplaceChar '<' "&lt;" (pyReplaceChar '&' "&amp;" s))

/-- `Humed.slack` (humed.py lines 384-458). External collaborators are
parameters: `rendered` is the `HumeRenderer.render` result for this packet
(`none` = no template resolved), `post` is `requests.post` returning an HTTP
status code or raising. The guard only intercepts `None` arguments, so the
`False` corruption sentinel falls through to a subscript that raises
`TypeError`; when no template resolves, `json.dumps` is applied to the SET
literal `{'text', m, }` and raises `TypeError`. -/
def slack (cfg : SlackCfg) (humed_hostname : String) (rendered : Option String)
    (post : String → String → Except PyErr Nat) (humepkt : SlackArg)
    (rowid : Option Nat) : Except PyErr Bool :=
  match humepkt, rowid with
  | .pyNone, _ => .ok false
  | _, none => .ok false
  | .pyFalse, some _ => .error .typeError
  | .pyPkt p, some _ => do
    let humeJ ← jget p.hume "hume"
    let hostV ← jget humeJ "hostname"
    let levelV ← jget humeJ "level"
    let tagsV ← jget humeJ "tags"
    let taskV ← jget humeJ "task"
    let msgV ← jget humeJ "msg"
    let tagstr ← pyJoinComma tagsV
    let m := humed_hostname ++ " [" ++ p.ts ++ "] - " ++ pyStr levelV ++ " "
      ++ pyStr hostV ++ ":" ++ pyStr taskV ++ ": \x27" ++ pyStr msgV
      ++ "\x27 " ++ tagstr
    let _m2 := htmlEscape m
    match rendered with
    | none => .error .typeError
    | some slackmsg =>
      match slack_choose_webhook cfg taskV levelV with
      | none => .error .keyError
      | some webhook => do
        let stat ← post webhook slackmsg
        pure (stat == 200)

/-- The per-rowid dispatch step of `Humed.worker_process_transfers` for the
slack transfer method (humed.py lines 220, 228-229): load the record, then
call `Humed.slack`; neither call is guarded by a `try`. -/
def worker_dispatch_slack (cfg : SlackCfg) (humed_hostname : String)
    (rendered : Nat → Option String) (post : String → String → Except PyErr Nat)
    (st : Store) (r : Nat) : Except PyErr Bool :=
  match get_humepkt_from_transfers st r with
  | .error e => .error e
  | .ok arg => slack cfg humed_hostname (rendered r) post arg (some r)

/-- The per-rowid dispatch step of `Humed.worker_process_transfers` for a
plugin transfer method (humed.py lines 230-236): `plugin.send` is wrapped in
`try/except Exception`, turning any exception into `ret = False`; the
preceding record load is not. -/
def worker_dispatch_plugin (send : Nat → Except PyErr Bool) (st : Store)
    (r : Nat) : Except PyErr Bool :=
  match get_humepkt_from_transfers st r with
  | .error e => .error e
  | .ok _ =>
    match send r with
    | .error _ => .ok false
    | .ok b => .ok b

/-- The loop over `pendientes` in `Humed.worker_process_transfers` (humed.py
lines 219-238), with an accumulator of the rowids dispatched so far: for
each pending rowid, dispatch it, and on `ret is True` mark it sent; an
exception escaping a dispatch escapes the loop (and kills the worker
thread). -/
def workerGo (dispatch : Store → Nat → Except PyErr Bool) :
    List Nat → Store → List Nat → Except PyErr (Store × List Nat)
  | [], st, inv => .ok (st, inv)
  | r :: rest, st, inv =>
    match dispatch st r with
    | .error e => .error e
    | .ok b => workerGo dispatch rest (if b then transfer_ok st r else st) (inv ++ [r])

/-- One full dispatch cycle of `Humed.worker_process_transfers` (humed.py
lines 210-239): on a queue signal, list the pending rowids and process each
in order. The result pairs the table afterwards with the list of rowids
for which the backend dispatch was invoked. -/
def worker_process_transfers_cycle (dispatch : Store → Nat → Except PyErr Bool)
    (st : Store) : Except PyErr (Store × List Nat) :=
  workerGo dispatch (list_transfers2 true st) st []

/-- A backend that raises no exception and reports delivery success `f r`
for rowid `r` (the "backend reports" hypothesis of the retry discipline). -/
def okDispatch (f : Nat → Bool) : Store → Nat → Except PyErr Bool :=
  fun _ r => .ok (f r)

/-- Iterate dispatch cycles for a list of per-cycle backend outcomes,
collecting each cycle's invoked rowids (a cycle that raises ends the run,
as the worker thread is dead). -/
def runCycles : List (Nat → Bool) → Store → Store × List (List Nat)
  | [], st => (st, [])
  | g :: gs, st =>
    match worker_process_transfers_cycle (okDispatch g) st with
    | .error _ => (st, [])
    | .ok (st1, inv) =>
      let p := runCycles gs st1
      (p.1, inv :: p.2)

/-- A structurally valid packet (after token stripping): the section-8
end-to-end example of the spec. -/
def pkt0 : JVal :=
  .jobj [("hume", .jobj
    [("version", .jint 1),
     ("timestamp", .jstr "2024-06-01T12:00:00.000000"),
     ("hostname", .jstr "box1"),
     ("level", .jstr "warning"),
     ("task", .jstr "BACKUP"),
     ("msg", .jstr "disk low"),
     ("tags", .jarr [.jstr "ops"]),
     ("extra", .jobj [])])]

/-- A slack configuration with a default and a warning webhook and no
task override table. -/
def cfg0 : SlackCfg :=
  ⟨[("webhook_default", "https://hooks.example/default"),
    ("webhook_warning", "https://hooks.example/warning"),
    ("template_base", "default")], none⟩

/-- A transfers table holding one pending, well-formed record. -/
def st0 : Store := [⟨1, "2024-06-01 12:00:01", false, .parsed pkt0⟩]

/-- A transfers table holding one pending record whose stored payload is
not valid JSON. -/
def stCorrupt : Store := [⟨1, "2024-06-01 12:00:01", false, .malformed⟩]

/-- The humepkt dict `get_humepkt_from_transfers` would build for `st0`. -/
def hp0 : HumePkt := ⟨1, "2024-06-01 12:00:01", pkt0⟩

/-- An HTTP POST that raises (e.g. `requests.exceptions.ConnectionError`). -/
def postRaise : String → String → Except PyErr Nat :=
  fun _ _ => .error .requestsError

/-- An HTTP POST that returns status 200. -/
def post200 : String → String → Except PyErr Nat :=
  fun _ _ => .ok 200

/-- An HTTP POST that returns status 500. -/
def post500 : String → String → Except PyErr Nat :=
  fun _ _ => .ok 500

/-- Claim-side wording of the webhook choice (C7): an explicit task override
wins; otherwise the per-level key is `webhook_default` for ok/info,
`webhook_warning` for warning/unknown, and `webhook_{level}` for every other
level; if that per-level key is absent, `webhook_default` is used. -/
def claim_webhook_choice (cfg : SlackCfg) (task : JVal) (level : JVal) :
    Option String :=
  match ((match cfg.task_channels with
          | some tc => tc.find? (fun kv => pyEqStr task kv.1)
          | none => none) : Option (String × String)) with
  | some kv => some kv.2
  | none =>
    let key :=
      if pyStrMem level ["ok", "info"] then "webhook_default"
      else if pyStrMem level ["warning", "unknown"] then "webhook_warning"
      else "webhook_" ++ pyStr level
    match cfgLookup cfg.entries key with
    | some w => some w
    | none => cfgLookup cfg.entries "webhook_default"

/-- Claim-side wording of one metrics line (C9):
`hume_task_last_ts_seconds{hostname="...",task="...",level="..."} <epoch>`
with embedded double quotes in label values escaped. -/
def claim_metric_line (host task level : String) (ts : Int) : String :=
  "hume_task_last_ts_seconds\x7bhostname=\"" ++ escQuote host
    ++ "\",task=\"" ++ escQuote task
    ++ "\",level=\"" ++ escQuote level
    ++ "\"\x7d " ++ toString ts

/-- Claim-side wording of the metrics body (C9): the gauge type header
followed by one claim-format line per status entry. -/
def claim_metrics_body (status : StatusMap) : String :=
  joinWith "\n"
    ("# TYPE hume_task_last_ts_seconds gauge" ::
      status.map (fun e => claim_metric_line e.1.1 e.1.2 e.2.1 e.2.2))
  ++ "\n"

/-- Whether a metrics bearer token counts as configured (a falsy token does
not). -/
def tokenConfigured : Option String → Bool
  | some t => !(t == "")
  | none => false

/-- Claim-side wording of the metrics endpoint (C9): `GET /metrics` returns
200 with `text/plain; version=0.0.4` and the gauge body; with a configured
token, a request without a matching `Authorization: Bearer <token>` header
receives 403; any other path receives 404. -/
def claim_metrics_response (metrics_token : Option String) (status : StatusMap)
    (path : String) (authHeader : Option String) : HttpResp :=
  if path = "/metrics" then
    if tokenConfigured metrics_token
        && !((authHeader.getD "") == "Bearer " ++ (metrics_token.getD ""))
    then ⟨403, none, none⟩
    else ⟨200, some "text/plain; version=0.0.4", some (claim_metrics_body status)⟩
  else ⟨404, none, none⟩

/-- The effect of one dispatch cycle on a record, as a function of the
pending list scanned at the start of the cycle: a record whose rowid is
pending and whose delivery the backend reports successful flips to
`sent=1`; every other record is untouched. -/
def applyPend (f : Nat → Bool) (pend : List Nat) (rec : TransferRec) : TransferRec :=
  if pend.any (fun r => f r && rec.rowid == r) then { rec with sent := true } else rec

theorem workerGo_okDispatch (f : Nat → Bool) (pend : List Nat) :
    ∀ (st : Store) (inv : List Nat),
      workerGo (okDispatch f) pend st inv
        = .ok (pend.foldl (fun s r => if f r then transfer_ok s r else s) st, inv ++ pend) := by
  induction pend with
  | nil => intro st inv; simp [workerGo]
  | cons p ps ih =>
    intro st inv
    simp [workerGo, okDispatch, ih]

theorem foldl_sendstep_eq_map (f : Nat → Bool) :
    ∀ (pend : List Nat) (st : Store),
      pend.foldl (fun s r => if f r then transfer_ok s r else s) st
        = st.map (applyPend f pend) := by
  intro pend
  induction pend with
  | nil =>
    intro st
    simp only [List.foldl_nil]
    have h2 : List.map (applyPend f []) st = List.map (fun a => a) st :=
      List.map_congr_left (fun a _ => by simp [applyPend])
    rw [h2, List.map_id']

  | cons p ps ih =>
    intro st
    by_cases hf : f p = true
    · have h1 : List.foldl (fun s r => if f r then transfer_ok s r else s) st (p :: ps)
          = List.foldl (fun s r => if f r then transfer_ok s r else s) (transfer_ok st p) ps := by
        simp [List.foldl, hf]
      rw [h1, ih, transfer_ok, List.map_map]
      apply List.map_congr_left
      intro a _
      simp only [Function.comp]
      by_cases hr : a.rowid = p
      · simp [applyPend, hr, hf]
      · simp [applyPend, hr, hf]
    · have hf2 : f p = false := by simpa using hf
      have h1 : List.foldl (fun s r => if f r then transfer_ok s r else s) st (p :: ps)
          = List.foldl (fun s r => if f r then transfer_ok s r else s) st ps := by
        simp [List.foldl, hf2]
      rw [h1, ih]
      apply List.map_congr_left
      intro a _
      simp [applyPend, hf2]

theorem cycle_okDispatch (f : Nat → Bool) (st : Store) :
    worker_process_transfers_cycle (okDispatch f) st
      = .ok (st.map (applyPend f (list_transfers2 true st)), list_transfers2 true st) := by
  simp [worker_process_transfers_cycle, workerGo_okDispatch, foldl_sendstep_eq_map]

theorem mem_pending_of_not_sent {st : Store} {rec : TransferRec}
    (hmem : rec ∈ st) (hsent : rec.sent = false) :
    rec.rowid ∈ list_transfers2 true st := by
  simp only [list_transfers2, if_pos rfl]
  exact List.mem_map.mpr ⟨rec, List.mem_filter.mpr ⟨hmem, by simp [hsent]⟩, rfl⟩

theorem not_sent_of_mem_pending {st : Store}
    (hnd : (st.map (fun r => r.rowid)).Nodup) {rec : TransferRec}
    (hmem : rec ∈ st) (hp : rec.rowid ∈ list_transfers2 true st) :
    rec.sent = false := by
  simp only [list_transfers2, if_pos rfl] at hp
  obtain ⟨a, ha, hrow⟩ := List.mem_map.mp hp
  obtain ⟨hast, hasent⟩ := List.mem_filter.mp ha
  have : a = rec := List.inj_on_of_nodup_map hnd hast hmem hrow
  subst this
  simpa using hasent

theorem applyPend_rowid (f : Nat → Bool) (pend : List Nat) (rec : TransferRec) :
    (applyPend f pend rec).rowid = rec.rowid := by
  simp only [applyPend]
  split <;> rfl

/-- Every record carrying a given rowid is already sent. -/
def allSentAt (r : Nat) (st : Store) : Prop :=
  ∀ rec ∈ st, rec.rowid = r → rec.sent = true

theorem allSentAt_not_pending {r : Nat} {st : Store} (h : allSentAt r st) :
    r ∉ list_transfers2 true st := by
  intro hp
  simp only [list_transfers2, if_pos rfl] at hp
  obtain ⟨a, ha, hrow⟩ := List.mem_map.mp hp
  obtain ⟨hast, hasent⟩ := List.mem_filter.mp ha
  have := h a hast hrow
  simp [this] at hasent

theorem allSentAt_map_applyPend {r : Nat} {st : Store} (f : Nat → Bool)
    (pend : List Nat) (h : allSentAt r st) :
    allSentAt r (st.map (applyPend f pend)) := by
  intro rec hrec hrow
  obtain ⟨a, ha, hae⟩ := List.mem_map.mp hrec
  subst hae
  rw [applyPend_rowid] at hrow
  have hs := h a ha hrow
  simp only [applyPend]
  split <;> simp [hs]

theorem allSentAt_runCycles {r : Nat} :
    ∀ (gs : List (Nat → Bool)) (st : Store), allSentAt r st →
      r ∉ ((runCycles gs st).2).flatten := by
  intro gs
  induction gs with
  | nil => intro st _ hp; simp [runCycles] at hp
  | cons g gs2 ih =>
    intro st h hp
    rw [runCycles, cycle_okDispatch] at hp
    simp only [List.flatten_cons, List.mem_append] at hp
    rcases hp with hp | hp
    · exact allSentAt_not_pending h hp
    · exact ih _ (allSentAt_map_applyPend g _ h) hp

/-- C1: the dispatch worker invokes the active backend only for records
whose sent flag is false; a delivery the backend reports as failed leaves
the record unchanged (`sent=false`, same rowid, no duplicate — the table's
rowids are preserved) and that same record is dispatched again on the next
worker signal; a delivery reported as succeeded sets `sent=true` and the
backend is never re-invoked for that rowid on any later worker cycle. -/
theorem worker_sent_flag_discipline
    (st : Store) (hnd : (st.map (fun r => r.rowid)).Nodup)
    (f : Nat → Bool) (rec : TransferRec) (hmem : rec ∈ st)
    (st2 : Store) (inv : List Nat)
    (hrun : worker_process_transfers_cycle (okDispatch f) st = .ok (st2, inv)) :
    (rec.rowid ∈ inv → rec.sent = false)
    ∧ st2.map (fun r => r.rowid) = st.map (fun r => r.rowid)
    ∧ (rec.sent = false → f rec.rowid = false →
        rec ∈ st2
        ∧ ∀ g st3 inv2,
            worker_process_transfers_cycle (okDispatch g) st2 = .ok (st3, inv2) →
            rec.rowid ∈ inv2)
    ∧ (rec.sent = false → f rec.rowid = true →
        { rec with sent := true } ∈ st2
        ∧ ∀ gs, rec.rowid ∉ ((runCycles gs st2).2).flatten) := by
  rw [cycle_okDispatch] at hrun
  have hst2 : st2 = st.map (applyPend f (list_transfers2 true st)) := by
    injection hrun with h1
    exact (congrArg Prod.fst h1).symm
  have hinv : inv = list_transfers2 true st := by
    injection hrun with h1
    exact (congrArg Prod.snd h1).symm
  subst hst2; subst hinv
  refine ⟨?_, ?_, ?_, ?_⟩
  · intro hp
    exact not_sent_of_mem_pending hnd hmem hp
  · rw [List.map_map]
    exact List.map_congr_left (fun a _ => applyPend_rowid f _ a)
  · intro hsent hf
    have hfix : applyPend f (list_transfers2 true st) rec = rec := by
      simp only [applyPend]
      rw [if_neg]
      intro hany
      obtain ⟨x, _, hx⟩ := List.any_eq_true.mp hany
      rw [Bool.and_eq_true] at hx
      obtain ⟨hfx, hxe⟩ := hx
      have : rec.rowid = x := by simpa using hxe
      rw [← this] at hfx
      rw [hf] at hfx
      exact Bool.noConfusion hfx
    constructor
    · exact List.mem_map.mpr ⟨rec, hmem, hfix⟩
    · intro g st3 inv2 hrun2
      rw [cycle_okDispatch] at hrun2
      have hinv2 : inv2 = list_transfers2 true (st.map (applyPend f (list_transfers2 true st))) := by
        injection hrun2 with h1
        exact (congrArg Prod.snd h1).symm
      subst hinv2
      exact mem_pending_of_not_sent (List.mem_map.mpr ⟨rec, hmem, hfix⟩) (by rw [← hfix] at hsent ⊢; exact hsent)
  · intro hsent hf
    have hpend : rec.rowid ∈ list_transfers2 true st := mem_pending_of_not_sent hmem hsent
    have hflip : applyPend f (list_transfers2 true st) rec = { rec with sent := true } := by
      simp only [applyPend]
      rw [if_pos]
      exact List.any_eq_true.mpr ⟨rec.rowid, hpend, by simp [hf]⟩
    constructor
    · exact List.mem_map.mpr ⟨rec, hmem, hflip⟩
    · intro gs
      apply allSentAt_runCycles gs
      intro a ha hrow
      obtain ⟨b, hb, hbe⟩ := List.mem_map.mp ha
      subst hbe
      rw [applyPend_rowid] at hrow
      by_cases hbs : b.sent = true
      · simp only [applyPend]
        split <;> simp [hbs]
      · have hbs2 : b.sent = false := by simpa using hbs
        have hbpend : b.rowid ∈ list_transfers2 true st := mem_pending_of_not_sent hb hbs2
        simp only [applyPend]
        rw [if_pos]
        exact List.any_eq_true.mpr ⟨b.rowid, hbpend, by simp [hrow, hf]⟩

/-- Concrete records for the retry-discipline witness. -/
def recW : TransferRec := ⟨1, "t0", false, .parsed pkt0⟩

def rec2W : TransferRec := ⟨2, "t0", true, .parsed pkt0⟩

def stW : Store := [recW, rec2W]

def stW2 : Store := [⟨1, "t0", true, .parsed pkt0⟩, rec2W]

def fW : Nat → Bool := fun r => r == 1

theorem worker_sent_flag_discipline_witness :
    ((stW.map (fun r => r.rowid)).Nodup
      ∧ recW ∈ stW
      ∧ worker_process_transfers_cycle (okDispatch fW) stW = .ok (stW2, [1]))
    ∧ ((recW.rowid ∈ ([1] : List Nat) → recW.sent = false)
      ∧ stW2.map (fun r => r.rowid) = stW.map (fun r => r.rowid)
      ∧ (recW.sent = false → fW recW.rowid = false →
          recW ∈ stW2
          ∧ ∀ g st3 inv2,
              worker_process_transfers_cycle (okDispatch g) stW2 = .ok (st3, inv2) →
              recW.rowid ∈ inv2)
      ∧ (recW.sent = false → fW recW.rowid = true →
          { recW with sent := true } ∈ stW2
          ∧ ∀ gs, recW.rowid ∉ ((runCycles gs stW2).2).flatten)) :=
  ⟨⟨by decide, by simp [stW], rfl⟩,
   worker_sent_flag_discipline stW (by decide) fW recW (by simp [stW]) stW2 [1] rfl⟩

/-- C2: the claim fails on the code. An exception raised inside the slack
backend's send path (here `requests.post` raising a connection error for
the one pending record of `st0`) propagates out of the dispatch loop and
kills the worker thread instead of being treated as delivered=false; only
the plugin dispatch path wraps the backend call in try/except and leaves
the record pending (`st0` unchanged) on an internal error. -/
theorem worker_backend_exception_halts :
    worker_process_transfers_cycle
        (worker_dispatch_slack cfg0 "humed-host" (fun _ => some "tpl") postRaise) st0
      = .error .requestsError
    ∧ worker_process_transfers_cycle
        (worker_dispatch_plugin (fun _ => .error .requestsError)) st0
      = .ok (st0, [1]) :=
  ⟨rfl, rfl⟩

/-- C4: `get_humepkt_from_transfers` does return the distinguishable
corrupt-record sentinel (`False`) for a stored payload that is not valid
JSON instead of raising — but the dispatch worker does not skip such a
record: the slack backend's guard only intercepts `None`, subscripts the
`False` sentinel, and the resulting `TypeError` escapes the dispatch loop
and kills the worker thread. -/
theorem corrupt_record_crashes_worker :
    get_humepkt_from_transfers stCorrupt 1 = .ok .pyFalse
    ∧ worker_process_transfers_cycle
        (worker_dispatch_slack cfg0 "humed-host" (fun _ => some "tpl") post200) stCorrupt
      = .error .typeError :=
  ⟨rfl, rfl⟩

/-- C6: the claim fails on the code. When no template resolves, the
fallback branch builds the Python SET literal `{'text', m, }` (a typo for a
dict) and `json.dumps` raises `TypeError`, so the claimed fallback body
`{"text": "<line>"}` is never posted; with a resolved template the POST is
made and delivery reports success exactly when the HTTP status is 200. -/
theorem slack_fallback_set_typeerror :
    slack cfg0 "humed-host" none post200 (.pyPkt hp0) (some 1) = .error .typeError
    ∧ slack cfg0 "humed-host" (some "rendered") post200 (.pyPkt hp0) (some 1) = .ok true
    ∧ slack cfg0 "humed-host" (some "rendered") post500 (.pyPkt hp0) (some 1) = .ok false :=
  ⟨rfl, rfl, rfl⟩

/-- C10: an empty-string configured auth token disables authentication
exactly like an absent one: `check_auth_token` accepts every message, of
any shape and any token field, because the check treats any falsy
configured token as absent. -/
theorem empty_auth_token_disables_auth (msg : JVal) :
    check_auth_token (some "") msg = .ok true := rfl

/-- C7: for every packet, the slack backend's destination webhook choice
follows the claimed priority: a `task_channels` override for the packet's
task wins; otherwise the per-level key is `webhook_default` for ok/info,
`webhook_warning` for warning/unknown, and `webhook_{level}` otherwise,
falling back to `webhook_default` when that key is absent from the
configuration. -/
theorem slack_webhook_selection (cfg : SlackCfg) (task level : JVal) :
    slack_choose_webhook cfg task level = claim_webhook_choice cfg task level := by
  have hlev : slack_level_webhook cfg level
      = (match cfgLookup cfg.entries
            (if pyStrMem level ["ok", "info"] then "webhook_default"
             else if pyStrMem level ["warning", "unknown"] then "webhook_warning"
             else "webhook_" ++ pyStr level) with
         | some w => some w
         | none => cfgLookup cfg.entries "webhook_default") := by
    simp only [slack_level_webhook]
    cases h : cfgLookup cfg.entries
        (if pyStrMem level ["ok", "info"] then "webhook_default"
         else if pyStrMem level ["warning", "unknown"] then "webhook_warning"
         else "webhook_" ++ pyStr level) with
    | some w => simp [h]
    | none => simp [h]
  simp only [slack_choose_webhook, claim_webhook_choice]
  cases htc : cfg.task_channels with
  | none =>
    simp only []
    exact hlev
  | some tc =>
    cases hf : tc.find? (fun kv => pyEqStr task kv.1) with
    | some kv => simp [hf]
    | none =>
      simp only [hf]
      exact hlev

/-- C9: the metrics endpoint behaves as claimed: `GET /metrics` returns 200
with Content-Type `text/plain; version=0.0.4` and one
`hume_task_last_ts_seconds{...}` gauge line per status entry with quotes in
label values escaped; with a configured (non-empty) metrics token, a
request without a matching `Authorization: Bearer <token>` header receives
403; any other path receives 404. -/
theorem metrics_endpoint_behavior (tok : Option String) (status : StatusMap)
    (path : String) (hdr : Option String) :
    do_GET tok status path hdr = claim_metrics_response tok status path hdr := by
  have hbody : render_metrics status = claim_metrics_body status := rfl
  by_cases hp : path = "/metrics"
  · cases tok with
    | none => simp [do_GET, claim_metrics_response, hp, tokenConfigured, hbody]
    | some t =>
      by_cases ht : t = ""
      · simp [do_GET, claim_metrics_response, hp, ht, tokenConfigured, hbody]
      · by_cases hh : (hdr.getD "") = "Bearer " ++ t
        · simp [do_GET, claim_metrics_response, hp, ht, hh, tokenConfigured, hbody]
        · simp [do_GET, claim_metrics_response, hp, ht, hh, tokenConfigured, hbody]
  · simp [do_GET, claim_metrics_response, hp]

theorem find?_popToken (fs : List (String × JVal)) (k : String)
    (hk : ¬(k = "token")) :
    (fs.filter (fun kv => !(kv.1 == "token"))).find? (fun kv => kv.1 = k)
      = fs.find? (fun kv => kv.1 = k) := by
  induction fs with
  | nil => rfl
  | cons kv rest ih =>
    by_cases h : kv.1 = "token"
    · rw [List.filter_cons_of_neg (by simp [h]),
        List.find?_cons_of_neg rest (by simp [h]; exact fun he => hk he.symm), ih]
    · by_cases hke : kv.1 = k
      · rw [List.filter_cons_of_pos (by simp [h]),
          List.find?_cons_of_pos _ (by simp [hke]),
          List.find?_cons_of_pos _ (by simp [hke])]
      · rw [List.filter_cons_of_pos (by simp [h]),
          List.find?_cons_of_neg _ (by simp [hke]),
          List.find?_cons_of_neg _ (by simp [hke]), ih]

theorem olookup_popToken (fs : List (String × JVal)) (k : String)
    (hk : ¬(k = "token")) :
    olookup (fs.filter (fun kv => !(kv.1 == "token"))) k = olookup fs k := by
  simp only [olookup, find?_popToken fs k hk]

/-- C3: for every request that parses as JSON and passes authentication,
the listener's reply is the literal `"OK"`, fixed before validation or
persistence run; a packet whose hostname fails hostname validation is
structurally invalid, so it is dropped with the daemon state unchanged (no
record created) and no further reply about the drop. -/
theorem ack_precedes_validation (auth_token : Option String)
    (tsParse : String → Option Int) (now : Int) (dbts : String)
    (ls : ListenerState) (pkt : JVal)
    (hauth : check_auth_token auth_token pkt = .ok true) :
    (run_handle_msg auth_token tsParse now dbts ls (some pkt)).1 = some "OK"
    ∧ (∀ pkt2, popToken pkt = .ok pkt2 → is_valid_hume pkt2 = false →
        (run_handle_msg auth_token tsParse now dbts ls (some pkt)).2 = .ok ls)
    ∧ (∀ fs2 pkt2 h, pkt = .jobj fs2 →
        olookup (fs2.filter (fun kv => !(kv.1 == "token"))) "hume"
          = some (.jobj pkt2) →
        olookup pkt2 "hostname" = some h →
        is_valid_hostname (pyStr h) = false →
        is_valid_hume (.jobj (fs2.filter (fun kv => !(kv.1 == "token")))) = false) := by
  refine ⟨?_, ?_, ?_⟩
  · simp only [run_handle_msg, hauth]
  · intro pkt2 hpop hval
    simp only [run_handle_msg, hauth, hpop, hval]
    simp
  · intro fs2 pkt2 h hpk hhume hhost hinv
    simp only [is_valid_hume, hhume, hhost, hinv]
    simp

/-- A structurally invalid packet: its hostname contains an underscore. -/
def pktBad : JVal := .jobj [("hume", .jobj
  [("version", .jint 1), ("timestamp", .jstr "2024-06-01T12:00:00.000000"),
   ("hostname", .jstr "bad_host"), ("level", .jstr "ok"), ("msg", .jstr "m")])]

/-- An empty daemon state. -/
def lsW : ListenerState := ⟨[], []⟩

/-- A timestamp parser that always fails over to `time.time()`. -/
def noParse : String → Option Int := fun _ => none

theorem ack_precedes_validation_witness :
    check_auth_token none pktBad = .ok true
    ∧ (run_handle_msg none noParse 0 "ts" lsW (some pktBad)).1 = some "OK"
    ∧ (run_handle_msg none noParse 0 "ts" lsW (some pktBad)).2 = .ok lsW
    ∧ is_valid_hume pktBad = false := by
  have h := ack_precedes_validation none noParse 0 "ts" lsW pktBad rfl
  exact ⟨rfl, h.1, h.2.1 pktBad rfl rfl,
    h.2.2 _ _ (.jstr "bad_host") rfl rfl rfl rfl⟩

/-- C5: with a configured non-empty auth token, a request whose token field
is missing or differs from the configured token is answered `"AUTHFAIL"`
and leaves the daemon state unchanged (no record persisted); with no
configured token, authentication passes and every parsed request is
acknowledged regardless of its token field. -/
theorem auth_token_gate (t : String) (ht : ¬(t = ""))
    (tsParse : String → Option Int) (now : Int) (dbts : String)
    (ls : ListenerState) (fs : List (String × JVal))
    (hmiss : ∀ s, olookup fs "token" = some (.jstr s) → ¬(s = t)) :
    run_handle_msg (some t) tsParse now dbts ls (some (.jobj fs))
      = (some "AUTHFAIL", .ok ls)
    ∧ ∀ (pkt : JVal) (ls2 : ListenerState),
        check_auth_token none pkt = .ok true
        ∧ (run_handle_msg none tsParse now dbts ls2 (some pkt)).1 = some "OK" := by
  have hca : check_auth_token (some t) (.jobj fs) = .ok false := by
    simp only [check_auth_token, if_neg ht]
    cases htok : olookup fs "token" with
    | none => simp [htok]
    | some v =>
      cases v with
      | jstr s =>
        simp only [htok]
        simp
        exact hmiss s htok
      | jnull => simp [htok]
      | jbool b => simp [htok]
      | jint n => simp [htok]
      | jarr xs => simp [htok]
      | jobj o => simp [htok]
  constructor
  · simp only [run_handle_msg, hca]
  · exact fun pkt ls2 => ⟨rfl, rfl⟩

theorem auth_token_gate_witness :
    ¬(("s3kret" : String) = "")
    ∧ run_handle_msg (some "s3kret") noParse 0 "ts" lsW (some (.jobj [("hume", .jstr "x")]))
        = (some "AUTHFAIL", .ok lsW)
    ∧ check_auth_token none (.jobj [("hume", .jstr "x")]) = .ok true
    ∧ (run_handle_msg none noParse 0 "ts" lsW (some (.jobj [("hume", .jstr "x")]))).1
        = some "OK" := by
  have h := auth_token_gate "s3kret" (by decide) noParse 0 "ts" lsW
    [("hume", .jstr "x")] (fun s hs => Option.noConfusion hs)
  exact ⟨by decide, h.1, (h.2 (.jobj [("hume", .jstr "x")]) lsW).1,
    (h.2 (.jobj [("hume", .jstr "x")]) lsW).2⟩

/-- C8: a parsed, authenticated packet whose `hume.version` field is
absent, not a Python int, or not a member of `SUPPORTED_MSG_VERSIONS = [1]`
fails structural validation, so the listener replies `"OK"` (the rejection
happens after the parse-time ack, at validation) and the daemon state is
unchanged: no transfer record is persisted and no status-table update
occurs. -/
theorem invalid_version_rejected (auth_token : Option String)
    (tsParse : String → Option Int) (now : Int) (dbts : String)
    (ls : ListenerState) (fs pkt : List (String × JVal))
    (hauth : check_auth_token auth_token (.jobj fs) = .ok true)
    (hh : olookup fs "hume" = some (.jobj pkt))
    (hver : olookup pkt "version" = none
      ∨ ∃ v, olookup pkt "version" = some v
          ∧ (py_isinstance_int v = false
             ∨ pyIntMem v SUPPORTED_MSG_VERSIONS = false)) :
    is_valid_hume (.jobj (fs.filter (fun kv => !(kv.1 == "token")))) = false
    ∧ run_handle_msg auth_token tsParse now dbts ls (some (.jobj fs))
        = (some "OK", .ok ls) := by
  have hh2 : olookup (fs.filter (fun kv => !(kv.1 == "token"))) "hume"
      = some (.jobj pkt) := by
    rw [olookup_popToken fs "hume" (by decide)]
    exact hh
  have hvalid : is_valid_hume (.jobj (fs.filter (fun kv => !(kv.1 == "token")))) = false := by
    simp only [is_valid_hume, hh2]
    rcases hver with hv | ⟨v, hv, hc | hc⟩
    · simp [hv]
    · simp [hv, hc]
    · simp [hv, hc]
  refine ⟨hvalid, ?_⟩
  simp only [run_handle_msg, hauth, popToken]
  simp [hvalid]

/-- The inner hume object of a packet carrying a non-integer version. -/
def pktV : List (String × JVal) :=
  [("version", .jstr "1"), ("timestamp", .jstr "t"),
   ("hostname", .jstr "box1"), ("level", .jstr "ok"), ("msg", .jstr "m")]

/-- A packet carrying a non-integer version. -/
def fsV : List (String × JVal) := [("hume", .jobj pktV)]

theorem invalid_version_rejected_witness :
    check_auth_token none (.jobj fsV) = .ok true
    ∧ olookup pktV "version" = some (.jstr "1")
    ∧ py_isinstance_int (.jstr "1") = false
    ∧ is_valid_hume (.jobj (fsV.filter (fun kv => !(kv.1 == "token")))) = false
    ∧ run_handle_msg none noParse 0 "ts" lsW (some (.jobj fsV))
        = (some "OK", .ok lsW) := by
  have h := invalid_version_rejected none noParse 0 "ts" lsW fsV pktV rfl rfl
    (Or.inr ⟨.jstr "1", rfl, Or.inl rfl⟩)
  exact ⟨rfl, rfl, rfl, h.1, h.2⟩
